import Mathlib

/-!
Shallow embedding of the button/menu/countdown controller in
`src/bin/oled-info.py` (raspberry-files, version 0.2), together with proofs
about its event/timing state machine.

Conventions used throughout:
* Press durations (`timedelta` values in the source) are modelled in
  microseconds as `Nat`; `ACTION_PRESS = timedelta(seconds=2)` becomes
  `PRESS_us = 2000000`, and the source comparison `press_delta > ACTION_PRESS`
  is the strict comparison `PRESS_us < d`.
* The idle-phase timer `action_time` (a Python float decremented by `0.1`)
  is modelled in exact rational arithmetic (`ℚ`); double-precision
  simulation of the source shows the decrement from 20 crosses zero on the
  200th tick exactly as the rational model does.
* `button.is_pressed` during a countdown is an oracle `pressed : Nat → Bool`
  giving the sampled value at the poll of each one-second step (steps are
  numbered from 1).
* Sleeps are counted (in whole seconds for the countdown), renders and
  spawned commands are logged, and `exit()` is the `exited` flag; the
  process never runs past an `exited := true` outcome.
-/

namespace OledInfo

/-- `MENU` list from the source: the cycleable menu screens, in order. -/
def MENU : List String := ["INFO", "INFO2", "CLOCK", "REBOOT", "SHUTDOWN"]

/-- `ACTION_INITIAL_TIMEOUT = 10` (seconds). -/
def ACTION_INITIAL_TIMEOUT : ℚ := 10

/-- `ACTION_TIMEOUT = 20` (seconds). -/
def ACTION_TIMEOUT : ℚ := 20

/-- `ACTION_PRESS = timedelta(seconds=2)`, in microseconds. -/
def PRESS_us : Nat := 2000000

/-- `REBOOT_COUNTDOWN = 6`. -/
def REBOOT_COUNTDOWN : Nat := 6

/-- `SHUTDOWN_COUNTDOWN = 6`. -/
def SHUTDOWN_COUNTDOWN : Nat := 6

/-- `IO_FIELD = 12`: 1-based column of the disk-statistics file scanned. -/
def IO_FIELD : Nat := 12

/-- The two destructive actions behind a countdown. -/
inductive ActionKind where
  | reboot
  | shutdown
deriving DecidableEq, Repr

/-- Countdown length for each action (`REBOOT_COUNTDOWN`/`SHUTDOWN_COUNTDOWN`). -/
def countdownOf : ActionKind → Nat
  | .reboot => REBOOT_COUNTDOWN
  | .shutdown => SHUTDOWN_COUNTDOWN

/-- Screen id rendered during each countdown (`"REBOOTING"`/`"SHUTTING_DOWN"`). -/
def screenOf : ActionKind → String
  | .reboot => "REBOOTING"
  | .shutdown => "SHUTTING_DOWN"

/-- Shell command spawned on natural completion of each countdown. -/
def cmdOf : ActionKind → String
  | .reboot => "sudo reboot now"
  | .shutdown => "sudo shutdown now"

/-- Index `menu_state` is reset to when the countdown of the given kind is
cancelled (`menu_state = 0` in the REBOOT branch, `menu_state = 1` in the
SHUTDOWN branch of the source). -/
def cancelIndexOf : ActionKind → Nat
  | .reboot => 0
  | .shutdown => 1

/-- The part of the interpreter state the long-press handler reads and
writes: `menu_state` (optional menu index) and `action_cancel`. -/
structure LPState where
  menu_state : Option Nat
  action_cancel : Bool
deriving DecidableEq, Repr

/-- Observable outcome of running the long-press handler (or one countdown
branch of it): final state, countdown renders `(screen, count)` in order,
number of blank-display calls, commands spawned, whether `exit()` was
reached, and whole seconds slept (`time.sleep(1)` calls). -/
structure LPOut where
  st : LPState
  displays : List (String × Nat)
  blanks : Nat
  invocations : List String
  exited : Bool
  sleeps : Nat
deriving DecidableEq, Repr

/-- The countdown `while count > 0:` loop: render `(screen, count)`,
decrement, sleep one second, then poll the button; a pressed poll breaks out
with the cancel flag set.  `step` numbers the polls starting from 1;
`ds`/`sl` accumulate the renders and seconds slept so far.  Returns the
renders, seconds slept, and whether the loop broke on a pressed poll. -/
def cdLoop (pressed : Nat → Bool) (screen : String) :
    Nat → Nat → List (String × Nat) → Nat → List (String × Nat) × Nat × Bool
  | 0, _, ds, sl => (ds, sl, false)
  | c + 1, step, ds, sl =>
    let ds := ds ++ [(screen, c + 1)]
    let sl := sl + 1
    if pressed step then (ds, sl, true)
    else cdLoop pressed screen c (step + 1) ds sl

/-- One countdown branch of the long-press handler (source lines 246–262 for
REBOOT, 263–279 for SHUTDOWN): `time.sleep(1)` grace, the countdown loop,
then `if action_cancel: menu_state := cancelIndexOf k` else blank display,
spawn the command and `exit()`. -/
def actionRun (pressed : Nat → Bool) (k : ActionKind) (s : LPState) : LPOut :=
  let r := cdLoop pressed (screenOf k) (countdownOf k) 1 [] 1
  let ac := s.action_cancel || r.2.2
  if ac then
    { st := { menu_state := some (cancelIndexOf k), action_cancel := ac },
      displays := r.1, blanks := 0, invocations := [], exited := false,
      sleeps := r.2.1 }
  else
    { st := { s with action_cancel := ac },
      displays := r.1, blanks := 1, invocations := [cmdOf k], exited := true,
      sleeps := r.2.1 }

/-- Sequencing of two long-press outcomes (the two `if` statements of the
handler run one after the other when neither exits). -/
def LPOut.merge (a b : LPOut) : LPOut :=
  { st := b.st, displays := a.displays ++ b.displays,
    blanks := a.blanks + b.blanks, invocations := a.invocations ++ b.invocations,
    exited := a.exited || b.exited, sleeps := a.sleeps + b.sleeps }

/-- Outcome of the long-press handler when neither countdown branch is
entered (both `if` tests false): no observable effect. -/
def emptyOut (s : LPState) : LPOut :=
  { st := s, displays := [], blanks := 0, invocations := [], exited := false,
    sleeps := 0 }

/-- The body of `if not action_cancel and press_delta > ACTION_PRESS:`
(source lines 246–279): evaluate `MENU[menu_state]` — a `menu_state` of
`None` raises `TypeError`, an out-of-range index raises `IndexError` — run
the REBOOT branch if it reads `"REBOOT"`, then (unless the process exited)
re-evaluate `MENU[menu_state]` for the SHUTDOWN `if`. -/
def dispatch (pressed : Nat → Bool) (s : LPState) : Except String LPOut :=
  match s.menu_state with
  | none => .error "TypeError"
  | some i =>
    match MENU[i]? with
    | none => .error "IndexError"
    | some scr =>
      if scr = "REBOOT" then
        let o := actionRun pressed ActionKind.reboot s
        if o.exited then .ok o
        else
          match o.st.menu_state with
          | none => .error "TypeError"
          | some j =>
            match MENU[j]? with
            | none => .error "IndexError"
            | some scr2 =>
              if scr2 = "SHUTDOWN" then
                .ok (o.merge (actionRun pressed ActionKind.shutdown o.st))
              else .ok o
      else if scr = "SHUTDOWN" then .ok (actionRun pressed ActionKind.shutdown s)
      else .ok (emptyOut s)

/-- Result of one pass through the `while button.is_pressed:` loop: state
after the press, the `button_clicked` flag, the long-press outcomes
produced while the button was down, and whether the process exited during
the press. -/
structure PressOut where
  st : LPState
  clicked : Bool
  outs : List LPOut
  exited : Bool
deriving DecidableEq, Repr

/-- The `while button.is_pressed:` loop (source lines 227–282) at sample
granularity.  `samples` lists the press durations `press_delta` (in
microseconds) observed at the successive iterations, all taken while the
button reads pressed; the `action_time` bookkeeping and the first-sample
`INFO` render (lines 236–239), which do not touch `menu_state`,
`action_cancel` or the long-press handler, are abstracted away.  Each
sample either enters the long-press handler (guard
`not action_cancel and press_delta > ACTION_PRESS`) or sets
`button_clicked`.  An `exit()` inside the handler ends the run. -/
def pressLoop (pressed : Nat → Bool) :
    List Nat → LPState → Bool → List LPOut → Except String PressOut
  | [], s, clicked, outs => .ok ⟨s, clicked, outs, false⟩
  | d :: rest, s, clicked, outs =>
    if s.action_cancel = false ∧ PRESS_us < d then
      match dispatch pressed s with
      | .error e => .error e
      | .ok o =>
        if o.exited then .ok ⟨o.st, clicked, outs ++ [o], true⟩
        else pressLoop pressed rest o.st clicked (outs ++ [o])
    else pressLoop pressed rest s true outs

/-- `menu_state` update on a click (source lines 294–299): from `None` or
the last menu index, reset to 0; otherwise increment. -/
def advance (ms : Option Nat) : Nat :=
  match ms with
  | none => 0
  | some i => if i = MENU.length - 1 then 0 else i + 1

/-- `advance` iterated `n` times (each click stores `some` of the new
index). -/
def advanceIter (ms : Option Nat) : Nat → Option Nat
  | 0 => ms
  | n + 1 => some (advance (advanceIter ms n))

/-- The `if button_clicked:` release handler (source lines 284–300): clear
`action_cancel` and `button_clicked`, advance `menu_state`, and render the
new screen.  When `button_clicked` is false nothing happens. -/
def releaseHandler (s : LPState) (clicked : Bool) : LPState × Option String :=
  if clicked then
    let ms := advance s.menu_state
    ({ menu_state := some ms, action_cancel := false }, MENU[ms]?)
  else (s, none)

/-- State for the idle-phase timer branch: `action_time` (exact-arithmetic
model of the Python float) and `menu_state`. -/
structure TimeoutState where
  action_time : ℚ
  menu_state : Option Nat
deriving DecidableEq, Repr

/-- One tick of the `if action_time > 0:` branch at the top of the main
loop (source lines 199–206): sleep 0.1 s, decrement by 0.1, and on the tick
that drops the timer to ≤ 0 render the blank display and reset
`menu_state` to `None`.  When `action_time ≤ 0` the loop takes the disk
branch instead and the timer is untouched.  Returns the new state and
whether the expiry event fired on this tick. -/
def timeoutTick (s : TimeoutState) : TimeoutState × Bool :=
  if 0 < s.action_time then
    let t := s.action_time - 1 / 10
    if t ≤ 0 then ({ action_time := t, menu_state := none }, true)
    else ({ s with action_time := t }, false)
  else (s, false)

/-- `timeoutTick` iterated `n` times, counting how many ticks fired the
expiry event. -/
def timeoutIter (s : TimeoutState) : Nat → TimeoutState × Nat
  | 0 => (s, 0)
  | n + 1 =>
    let r := timeoutIter s n
    let r2 := timeoutTick r.1
    (r2.1, r.2 + if r2.2 then 1 else 0)

/-- Python whitespace, as used by `str.split()` with no arguments. -/
def isPyWhitespace (c : Char) : Bool :=
  c = ' ' || c = '\t' || c = '\n' || c = '\r' || c = '\x0b' || c = '\x0c'

/-- Split a character list at every character satisfying `p`, keeping
empty groups (the behaviour of Python `str.split(sep)` for a one-character
separator, used here for `io.split('\n')`). -/
def splitRuns (p : Char → Bool) : List Char → List (List Char)
  | [] => [[]]
  | c :: rest =>
    match splitRuns p rest with
    | [] => [[]]
    | g :: gs => if p c then [] :: g :: gs else (c :: g) :: gs

/-- `l.split()`: split on runs of whitespace, discarding empty fields. -/
def pysplit (cs : List Char) : List (List Char) :=
  (splitRuns isPyWhitespace cs).filter (fun t => t ≠ [])

/-- Digit tail of a Python integer literal: digits, with single
underscores allowed between digits.  `acc` is the value parsed so far. -/
def pyDigits : List Char → Nat → Option Nat
  | [], acc => some acc
  | '_' :: c :: rest, acc =>
    if c.isDigit then pyDigits rest (acc * 10 + (c.toNat - 48)) else none
  | ['_'], _ => none
  | c :: rest, acc =>
    if c.isDigit then pyDigits rest (acc * 10 + (c.toNat - 48)) else none

/-- Python `int(tok)` on a whitespace-free token: optional sign, then a
digit, then digits with single underscores between them; anything else
raises `ValueError` (`none`). -/
def pyInt : List Char → Option Int
  | '+' :: c :: rest =>
    if c.isDigit then (pyDigits rest (c.toNat - 48)).map Int.ofNat else none
  | '-' :: c :: rest =>
    if c.isDigit then (pyDigits rest (c.toNat - 48)).map (fun n => -(n : Int))
    else none
  | c :: rest =>
    if c.isDigit then (pyDigits rest (c.toNat - 48)).map Int.ofNat else none
  | [] => none

/-- The `for l in io.split('\n'):` scan (source lines 212–218) over the
already-split lines: index the whitespace-split row at `IO_FIELD - 1`
(an absent field is the caught `IndexError`, skipping the row), convert
with `int` (a malformed field is an uncaught `ValueError`), and stop with
`True` at the first nonzero value. -/
def scanLines : List (List Char) → Except String Bool
  | [] => .ok false
  | l :: ls =>
    match (pysplit l)[IO_FIELD - 1]? with
    | none => scanLines ls
    | some tok =>
      match pyInt tok with
      | none => .error "ValueError"
      | some v => if v ≠ 0 then .ok true else scanLines ls

/-- The disk-activity poll: split the file contents on newlines and scan. -/
def diskScan (content : String) : Except String Bool :=
  scanLines (splitRuns (fun c => c = '\n') content.data)

/-- Whether a single row reports activity: its `IO_FIELD`-th field exists,
parses as an integer, and is nonzero. -/
def rowActive (l : List Char) : Bool :=
  match (pysplit l)[IO_FIELD - 1]? with
  | none => false
  | some tok =>
    match pyInt tok with
    | none => false
    | some v => v ≠ 0

/-- Whether a row is harmless to the scan: its `IO_FIELD`-th field is
either absent (the caught `IndexError`) or a well-formed integer. -/
def rowParses (l : List Char) : Bool :=
  match (pysplit l)[IO_FIELD - 1]? with
  | none => true
  | some tok => (pyInt tok).isSome

/-- A constantly-released button oracle. -/
def noPress : Nat → Bool := fun _ => false

/-- A constantly-pressed button oracle. -/
def allPress : Nat → Bool := fun _ => true

/-- `menu_state` is `None` or a valid index into `MENU`. -/
def validMenu (ms : Option Nat) : Prop :=
  ∀ i, ms = some i → i < MENU.length

/-! ### Helper lemmas -/

/-- A countdown loop none of whose polls reads pressed runs all `c` steps,
rendering counts `c, c-1, …, 1` and sleeping `c` seconds. -/
theorem cdLoop_nofire (pressed : Nat → Bool) (scr : String) :
    ∀ c step ds sl, (∀ n, step ≤ n → n < step + c → pressed n = false) →
      cdLoop pressed scr c step ds sl =
        (ds ++ (List.range c).map (fun j => (scr, c - j)), sl + c, false) := by
  intro c
  induction c with
  | zero => intro step ds sl _; simp [cdLoop]
  | succ c ih =>
    intro step ds sl hp
    have hstep : pressed step = false := hp step (le_refl _) (by omega)
    have ihres := ih (step + 1) (ds ++ [(scr, c + 1)]) (sl + 1)
      (fun n h1 h2 => hp n (by omega) (by omega))
    simp only [cdLoop, hstep, Bool.false_eq_true, if_false, ihres, Prod.mk.injEq]
    refine ⟨?_, by omega, trivial⟩
    rw [List.range_succ_eq_map, List.map_cons, List.map_map, List.append_assoc]
    simp [Function.comp_def, Nat.succ_sub_succ]

/-- A countdown loop whose polls read released for the first `kk - 1` steps
and pressed at step `kk` (counted from `step`) stops after `kk` steps with
the cancel flag, having rendered counts `c, c-1, …, c-kk+1`. -/
theorem cdLoop_cancel (pressed : Nat → Bool) (scr : String) :
    ∀ kk c step ds sl, 1 ≤ kk → kk ≤ c →
      (∀ j, j < kk - 1 → pressed (step + j) = false) →
      pressed (step + kk - 1) = true →
      cdLoop pressed scr c step ds sl =
        (ds ++ (List.range kk).map (fun j => (scr, c - j)), sl + kk, true) := by
  intro kk
  induction kk with
  | zero => omega
  | succ kk ih =>
    intro c step ds sl _ hkc hb hk
    obtain ⟨c, rfl⟩ : ∃ m, c = m + 1 := ⟨c - 1, by omega⟩
    rcases Nat.eq_zero_or_pos kk with hkk0 | hkk1
    · subst hkk0
      have hstep : pressed step = true := by simpa using hk
      simp [cdLoop, hstep, List.range_succ_eq_map]
    · have hstep : pressed step = false := hb 0 (by omega)
      have ihres := ih c (step + 1) (ds ++ [(scr, c + 1)]) (sl + 1) hkk1 (by omega)
        (fun j hj => by
          have := hb (j + 1) (by omega)
          simpa [Nat.add_assoc, Nat.add_comm 1 j] using this)
        (by
          have : step + 1 + kk - 1 = step + (kk + 1) - 1 := by omega
          rw [this]; exact hk)
      simp only [cdLoop, hstep, Bool.false_eq_true, if_false, ihres, Prod.mk.injEq]
      refine ⟨?_, by omega, trivial⟩
      rw [List.range_succ_eq_map, List.map_cons, List.map_map, List.append_assoc]
      simp [Function.comp_def, Nat.succ_sub_succ]

/-- The last render of a countdown that ran `kk ≥ 1` steps. -/
theorem getLast?_range_map {α : Type} (f : Nat → α) (kk : Nat) (h : 1 ≤ kk) :
    ((List.range kk).map f).getLast? = some (f (kk - 1)) := by
  rw [List.getLast?_eq_getElem?]
  have hlt : kk - 1 < kk := by omega
  simp [List.getElem?_map, List.getElem?_range, hlt]

/-! ### C1 -/

/-- C1: a countdown run (reboot or shutdown) in which the button is never
found pressed spawns the privileged command exactly once, after 6
one-second steps plus the initial 1-second grace delay (7 seconds slept in
total and 6 countdown renders), and reaches `exit()` (the process does not
resume its main loop). -/
theorem countdown_no_cancel_executes (k : ActionKind) (s : LPState)
    (pressed : Nat → Bool) (hp : ∀ n, 1 ≤ n → n ≤ 6 → pressed n = false)
    (hs : s.action_cancel = false) :
    (actionRun pressed k s).invocations = [cmdOf k] ∧
    (actionRun pressed k s).sleeps = 7 ∧
    (actionRun pressed k s).displays.length = 6 ∧
    (actionRun pressed k s).exited = true := by
  have hcd : countdownOf k = 6 := by cases k <;> rfl
  have hloop := cdLoop_nofire pressed (screenOf k) 6 1 [] 1
    (fun n h1 h2 => hp n h1 (by omega))
  simp [actionRun, hcd, hloop, hs]

/-- Witness for C1: the reboot countdown with a released button, started
from the REBOOT screen. -/
theorem countdown_no_cancel_executes_witness :
    (actionRun noPress ActionKind.reboot ⟨some 3, false⟩).invocations
        = [cmdOf ActionKind.reboot] ∧
    (actionRun noPress ActionKind.reboot ⟨some 3, false⟩).sleeps = 7 ∧
    (actionRun noPress ActionKind.reboot ⟨some 3, false⟩).displays.length = 6 ∧
    (actionRun noPress ActionKind.reboot ⟨some 3, false⟩).exited = true :=
  countdown_no_cancel_executes ActionKind.reboot ⟨some 3, false⟩ noPress
    (fun _ _ _ => rfl) rfl

/-! ### C2 -/

/-- C2: if the button is first found pressed during step `kk` (1 ≤ kk ≤ 6)
of a countdown, the cancel flag is set, the loop stops at that step (`kk`
renders, the last showing remaining count `6 - kk + 1`), no command is
spawned, and the process does not exit. -/
theorem countdown_cancel_aborts (k : ActionKind) (s : LPState)
    (pressed : Nat → Bool) (kk : Nat) (h1 : 1 ≤ kk) (h6 : kk ≤ 6)
    (hb : ∀ j, j < kk - 1 → pressed (1 + j) = false)
    (hk : pressed kk = true) (hs : s.action_cancel = false) :
    (actionRun pressed k s).st.action_cancel = true ∧
    (actionRun pressed k s).invocations = [] ∧
    (actionRun pressed k s).exited = false ∧
    (actionRun pressed k s).displays.length = kk ∧
    (actionRun pressed k s).displays.getLast?
        = some (screenOf k, 6 - kk + 1) := by
  have hcd : countdownOf k = 6 := by cases k <;> rfl
  have hk1 : pressed (1 + kk - 1) = true := by
    rw [show 1 + kk - 1 = kk by omega]; exact hk
  have hloop := cdLoop_cancel pressed (screenOf k) kk 6 1 [] 1 h1 h6 hb hk1
  have hlast := getLast?_range_map (fun j => (screenOf k, 6 - j)) kk h1
  simp only [actionRun, hcd, hloop, hs, Bool.false_or, List.nil_append, if_true]
  refine ⟨by trivial, by trivial, by trivial, by simp, ?_⟩
  rw [hlast]
  show some (screenOf k, 6 - (kk - 1)) = some (screenOf k, 6 - kk + 1)
  rw [show 6 - (kk - 1) = 6 - kk + 1 by omega]

/-- Witness for C2: the shutdown countdown cancelled at step 4 (remaining
count 3 on screen). -/
theorem countdown_cancel_aborts_witness :
    (actionRun (fun n => 4 ≤ n) ActionKind.shutdown ⟨some 4, false⟩).st.action_cancel = true ∧
    (actionRun (fun n => 4 ≤ n) ActionKind.shutdown ⟨some 4, false⟩).invocations = [] ∧
    (actionRun (fun n => 4 ≤ n) ActionKind.shutdown ⟨some 4, false⟩).exited = false ∧
    (actionRun (fun n => 4 ≤ n) ActionKind.shutdown ⟨some 4, false⟩).displays.length = 4 ∧
    (actionRun (fun n => 4 ≤ n) ActionKind.shutdown ⟨some 4, false⟩).displays.getLast?
        = some (screenOf ActionKind.shutdown, 6 - 4 + 1) :=
  countdown_cancel_aborts ActionKind.shutdown ⟨some 4, false⟩ (fun n => 4 ≤ n) 4
    (by norm_num) (by norm_num)
    (fun j hj => by simp; omega) (by simp) rfl

/-! ### C3 -/

/-- C3 counterexample: a cancelled reboot countdown interrupted the REBOOT
screen (index 3) but resets `menu_state` to 0, whose screen is INFO, and a
cancelled shutdown countdown interrupted SHUTDOWN (index 4) but resets
`menu_state` to 1, whose screen is INFO2 — not the interrupted screens. -/
theorem cancel_returns_to_fixed_screen_cex :
    (actionRun allPress ActionKind.reboot ⟨some 3, false⟩).st.action_cancel = true ∧
    (actionRun allPress ActionKind.reboot ⟨some 3, false⟩).st.menu_state = some 0 ∧
    (actionRun allPress ActionKind.shutdown ⟨some 4, false⟩).st.action_cancel = true ∧
    (actionRun allPress ActionKind.shutdown ⟨some 4, false⟩).st.menu_state = some 1 ∧
    MENU[3]? = some "REBOOT" ∧ MENU[4]? = some "SHUTDOWN" ∧
    MENU[0]? = some "INFO" ∧ MENU[1]? = some "INFO2" ∧
    some (0 : Nat) ≠ some 3 ∧ some (1 : Nat) ≠ some 4 := by
  decide

/-- C3 amended: whenever a countdown run ends cancelled, `menu_state` is
reset to the fixed index 0 (the INFO screen) for a reboot countdown and to
the fixed index 1 (the INFO2 screen) for a shutdown countdown, not to the
actionable screen that was interrupted. -/
theorem cancel_resets_to_fixed_index (pressed : Nat → Bool) (k : ActionKind)
    (s : LPState) (h : (actionRun pressed k s).st.action_cancel = true) :
    (actionRun pressed k s).st.menu_state = some (cancelIndexOf k) ∧
    MENU[cancelIndexOf k]?
        = some (match k with
                | ActionKind.reboot => "INFO"
                | ActionKind.shutdown => "INFO2") := by
  refine ⟨?_, by cases k <;> rfl⟩
  cases hbv : s.action_cancel || (cdLoop pressed (screenOf k) (countdownOf k) 1 [] 1).2.2 with
  | true => simp [actionRun, hbv]
  | false => simp [actionRun, hbv] at h

/-- Witness for C3 amended: a reboot countdown cancelled at the first step. -/
theorem cancel_resets_to_fixed_index_witness :
    (actionRun allPress ActionKind.reboot ⟨some 3, false⟩).st.menu_state
        = some (cancelIndexOf ActionKind.reboot) ∧
    MENU[cancelIndexOf ActionKind.reboot]? = some "INFO" :=
  cancel_resets_to_fixed_index allPress ActionKind.reboot ⟨some 3, false⟩ rfl

/-- A pass of the press loop none of whose samples passes the long-press
guard (`action_cancel` set, or every duration within the threshold) only
sets the click flag: state, outcomes and liveness are untouched. -/
theorem pressLoop_click (pressed : Nat → Bool) :
    ∀ (samples : List Nat) (s : LPState) (clicked : Bool) (outs : List LPOut),
      (s.action_cancel = true ∨ ∀ d ∈ samples, d ≤ PRESS_us) →
      pressLoop pressed samples s clicked outs
        = .ok ⟨s, clicked || !samples.isEmpty, outs, false⟩ := by
  intro samples
  induction samples with
  | nil => intro s clicked outs _; simp [pressLoop]
  | cons d rest ih =>
    intro s clicked outs h
    have hguard : ¬(s.action_cancel = false ∧ PRESS_us < d) := by
      rcases h with h | h
      · rintro ⟨h1, _⟩; rw [h] at h1; exact Bool.noConfusion h1
      · rintro ⟨_, h2⟩; exact absurd h2 (not_lt.mpr (h d (by simp)))
    have hrest : s.action_cancel = true ∨ ∀ x ∈ rest, x ≤ PRESS_us := by
      rcases h with h | h
      · exact Or.inl h
      · exact Or.inr fun x hx => h x (by simp [hx])
    rw [pressLoop, if_neg hguard, ih s true outs hrest]
    simp

/-! ### C4 -/

/-- C4: a press whose samples all stay within the 2-second threshold (a
click) never enters a countdown, a press handled while `action_cancel` is
already set never enters a countdown, and the long-press dispatch on a
screen that is neither REBOOT nor SHUTDOWN never enters a countdown: on a
valid non-actionable index it has no effect (no countdown, no command, no
render), and on the blank screen it raises `TypeError` without reaching a
countdown. -/
theorem click_and_guards_block_countdown (pressed : Nat → Bool)
    (samples : List Nat) (s s2 s3 s4 : LPState) (i : Nat) (scr : String) :
    ((∀ d ∈ samples, d ≤ PRESS_us) → s.action_cancel = false →
        pressLoop pressed samples s false []
          = .ok ⟨s, !samples.isEmpty, [], false⟩)
    ∧ (s2.action_cancel = true →
        pressLoop pressed samples s2 false []
          = .ok ⟨s2, !samples.isEmpty, [], false⟩)
    ∧ (s3.menu_state = some i → MENU[i]? = some scr → scr ≠ "REBOOT" →
        scr ≠ "SHUTDOWN" → dispatch pressed s3 = .ok (emptyOut s3))
    ∧ (s4.menu_state = none →
        dispatch pressed s4 = .error "TypeError") := by
  refine ⟨fun hshort _ => ?_, fun hac => ?_, fun h1 h2 h3 h4 => ?_,
    fun h4n => ?_⟩
  · rw [pressLoop_click pressed samples s false [] (Or.inr hshort)]
    simp
  · rw [pressLoop_click pressed samples s2 false [] (Or.inl hac)]
    simp
  · simp [dispatch, h1, h2, h3, h4]
  · simp [dispatch, h4n]

/-- Witness for C4: a 100 µs click sample on the INFO screen, the same
sample with the cancel flag set, the long-press dispatch on INFO, and the
long-press dispatch on the blank screen. -/
theorem click_and_guards_block_countdown_witness :
    pressLoop noPress [100] ⟨some 0, false⟩ false []
        = .ok ⟨⟨some 0, false⟩, true, [], false⟩ ∧
    pressLoop noPress [100] ⟨some 3, true⟩ false []
        = .ok ⟨⟨some 3, true⟩, true, [], false⟩ ∧
    dispatch noPress ⟨some 0, false⟩ = .ok (emptyOut ⟨some 0, false⟩) ∧
    dispatch noPress ⟨none, true⟩ = .error "TypeError" := by
  have h := click_and_guards_block_countdown noPress [100] ⟨some 0, false⟩
    ⟨some 3, true⟩ ⟨some 0, false⟩ ⟨none, true⟩ 0 "INFO"
  exact ⟨h.1 (by decide) rfl, h.2.1 rfl,
    h.2.2.1 rfl rfl (by decide) (by decide), h.2.2.2 rfl⟩

/-! ### C6 -/

/-- C6 counterexample: a single 2000001 µs sample taken while the button
is still pressed already runs the whole reboot countdown and spawns the
privileged command, with `exit()` reached inside the `while
button.is_pressed` loop — the long-press reaction happens before the
button is released, not at release. -/
theorem longpress_reaction_before_release_cex :
    pressLoop noPress [2000001] ⟨some 3, false⟩ false []
      = .ok ⟨⟨some 3, false⟩, false,
          [⟨⟨some 3, false⟩,
            [("REBOOTING", 6), ("REBOOTING", 5), ("REBOOTING", 4),
             ("REBOOTING", 3), ("REBOOTING", 2), ("REBOOTING", 1)],
            1, ["sudo reboot now"], true, 7⟩], true⟩ := rfl

/-- C6 amended: a sample with duration strictly over the 2-second
threshold (and `action_cancel` unset) triggers the long-press dispatch
immediately, while the button is still pressed; samples within the
threshold only mark the press as a click, whose sole reaction — the menu
advance — happens at release via the release handler. -/
theorem click_at_release_longpress_during_press (pressed : Nat → Bool)
    (samples : List Nat) (s : LPState) (d : Nat) (rest : List Nat)
    (o : LPOut) (hs : s.action_cancel = false) :
    ((∀ x ∈ samples, x ≤ PRESS_us) →
        pressLoop pressed samples s false []
            = .ok ⟨s, !samples.isEmpty, [], false⟩
        ∧ (releaseHandler s true).1.menu_state = some (advance s.menu_state))
    ∧ (PRESS_us < d → dispatch pressed s = .ok o → o.exited = true →
        pressLoop pressed (d :: rest) s false []
            = .ok ⟨o.st, false, [o], true⟩) := by
  constructor
  · intro hshort
    refine ⟨?_, rfl⟩
    rw [pressLoop_click pressed samples s false [] (Or.inr hshort)]
    simp
  · intro hd ho hex
    rw [pressLoop, if_pos ⟨hs, hd⟩, ho]
    simp [hex]

/-- Witness for C6 amended: a 100 µs click sample on the CLOCK screen. -/
theorem click_at_release_longpress_during_press_witness :
    (pressLoop noPress [100] ⟨some 2, false⟩ false []
        = .ok ⟨⟨some 2, false⟩, true, [], false⟩)
    ∧ (releaseHandler ⟨some 2, false⟩ true).1.menu_state
        = some (advance (some 2)) :=
  (click_at_release_longpress_during_press noPress [100] ⟨some 2, false⟩ 0 []
    (emptyOut ⟨some 2, false⟩) rfl).1 (by decide)

/-! ### C9 -/

/-- C9 (code bug, evaluated at the failing input): starting from the
initial state — `menu_state = None`, `action_cancel = False` — a press
sample whose duration exceeds the 2-second threshold reaches the
`MENU[menu_state]` lookup with `menu_state = None`, which raises an
uncaught `TypeError` (a Python list cannot be indexed by `None`) and
crashes the process instead of being a safe no-op. -/
theorem longpress_on_blank_menu_faults :
    pressLoop noPress [2000001] ⟨none, false⟩ false [] = .error "TypeError"
    ∧ dispatch noPress ⟨none, false⟩ = .error "TypeError" :=
  ⟨rfl, rfl⟩

/-! ### C7 -/

/-- C7 counterexample: five consecutive click advances starting from
`menu_state = None` land on index 4, the SHUTDOWN screen — not on the
first screen INFO (index 0) as claimed. -/
theorem five_clicks_from_none_cex :
    advanceIter none 5 = some 4 ∧ MENU[4]? = some "SHUTDOWN" ∧
    MENU[0]? = some "INFO" ∧ advanceIter none 5 ≠ some 0 := by
  decide

/-- C7 amended: the first advance from `None` enters the menu at the
first screen, so a full cycle back to it takes `MENU.length + 1 = 6`
advances from `None` (and `MENU.length = 5` advances starting from the
first screen); a single advance from `None` or from the last screen goes
to the first screen, and otherwise to the next screen in order. -/
theorem advance_cycling (i : Nat) (h : i < MENU.length - 1) :
    advanceIter none (MENU.length + 1) = some 0 ∧
    advanceIter (some 0) MENU.length = some 0 ∧
    advance none = 0 ∧
    advance (some (MENU.length - 1)) = 0 ∧
    advance (some i) = i + 1 := by
  refine ⟨by decide, by decide, rfl, by decide, ?_⟩
  have hne : i ≠ MENU.length - 1 := by
    have h5 : MENU.length = 5 := rfl
    rw [h5] at h ⊢; omega
  simp [advance, hne]

/-- Witness for C7 amended: the advance from the CLOCK screen (index 2). -/
theorem advance_cycling_witness :
    advanceIter none (MENU.length + 1) = some 0 ∧
    advanceIter (some 0) MENU.length = some 0 ∧
    advance none = 0 ∧
    advance (some (MENU.length - 1)) = 0 ∧
    advance (some 2) = 2 + 1 :=
  advance_cycling 2 (by decide)

/-! ### C10 -/

/-- `validMenu` holds of any index below the menu length. -/
theorem validMenu_some (i : Nat) (h : i < MENU.length) : validMenu (some i) :=
  fun _ hj => Option.some.inj hj ▸ h

/-- `validMenu` holds of the blank state. -/
theorem validMenu_none : validMenu none :=
  fun _ hj => Option.noConfusion hj

/-- The click advance always lands strictly inside the menu when it
starts from a valid state. -/
theorem advance_lt (ms : Option Nat) (hv : validMenu ms) :
    advance ms < MENU.length := by
  have h5 : MENU.length = 5 := rfl
  cases ms with
  | none => decide
  | some j =>
    have hj : j < MENU.length := hv j rfl
    rw [h5] at hj ⊢
    by_cases h : j = 5 - 1
    · simp [advance, h, h5]
    · simp [advance, h, h5]
      omega

/-- C10: `menu_state` is always `None` or a valid index into the
5-element `MENU` list — the click advance, the countdown cancellation
reset, the action-timeout expiry, and the release handler each preserve
the invariant. -/
theorem menu_state_invariant (ms : Option Nat) (pressed : Nat → Bool)
    (k : ActionKind) (s : LPState) (ts : TimeoutState) (clicked : Bool) :
    (validMenu ms → validMenu (some (advance ms)))
    ∧ (validMenu s.menu_state → validMenu (actionRun pressed k s).st.menu_state)
    ∧ (validMenu ts.menu_state → validMenu (timeoutTick ts).1.menu_state)
    ∧ (validMenu s.menu_state →
        validMenu (releaseHandler s clicked).1.menu_state) := by
  refine ⟨fun hv => validMenu_some _ (advance_lt ms hv), fun hv => ?_,
    fun hv => ?_, fun hv => ?_⟩
  · cases hbv : s.action_cancel
        || (cdLoop pressed (screenOf k) (countdownOf k) 1 [] 1).2.2 with
    | true =>
      simp only [actionRun, hbv, if_true]
      exact validMenu_some _ (by cases k <;> decide)
    | false =>
      simp only [actionRun, hbv, Bool.false_eq_true, if_false]
      exact hv
  · by_cases h1 : 0 < ts.action_time
    · by_cases h2 : ts.action_time - 1 / 10 ≤ 0
      · have h2b : ts.action_time ≤ 10⁻¹ := by
          rw [show ((10 : ℚ))⁻¹ = 1 / 10 by norm_num]; linarith
        have hmn : (timeoutTick ts).1.menu_state = none := by
          simp [timeoutTick, h1, h2b]
        rw [hmn]; exact validMenu_none
      · have h2b : ¬ ts.action_time ≤ 10⁻¹ := by
          rw [show ((10 : ℚ))⁻¹ = 1 / 10 by norm_num]; intro hle; apply h2; linarith
        have hmn : (timeoutTick ts).1.menu_state = ts.menu_state := by
          simp [timeoutTick, h1, h2b]
        rw [hmn]; exact hv
    · have hmn : (timeoutTick ts).1.menu_state = ts.menu_state := by
        simp [timeoutTick, h1]
      rw [hmn]; exact hv
  · unfold releaseHandler
    split_ifs with h1
    · exact validMenu_some _ (advance_lt s.menu_state hv)
    · exact hv

/-- Witness for C10: the invariant is preserved from the CLOCK screen,
through a cancelled reboot countdown, a timer tick, and a release. -/
theorem menu_state_invariant_witness :
    validMenu (some (advance (some 2))) ∧
    validMenu (actionRun allPress ActionKind.reboot
        ⟨some 3, false⟩).st.menu_state ∧
    validMenu (timeoutTick ⟨ACTION_TIMEOUT, some 2⟩).1.menu_state ∧
    validMenu (releaseHandler ⟨some 3, false⟩ true).1.menu_state := by
  have h := menu_state_invariant (some 2) allPress ActionKind.reboot
    ⟨some 3, false⟩ ⟨ACTION_TIMEOUT, some 2⟩ true
  exact ⟨h.1 (validMenu_some 2 (by decide)),
    h.2.1 (validMenu_some 3 (by decide)),
    h.2.2.1 (validMenu_some 2 (by decide)),
    h.2.2.2 (validMenu_some 3 (by decide))⟩

/-! ### C5 -/

/-- Before the 200th tick (exact arithmetic from 20), the timer keeps a
positive value `20 - k/10`, never fires, and leaves `menu_state` alone. -/
theorem timeoutIter_pre (ms : Option Nat) :
    ∀ k, k ≤ 199 → timeoutIter ⟨20, ms⟩ k
        = (⟨20 - (k : ℚ) / 10, ms⟩, 0) := by
  intro k
  induction k with
  | zero => intro _; simp [timeoutIter]
  | succ k ih =>
    intro hk
    have ihk := ih (by omega)
    have hkq : (k : ℚ) ≤ 198 := by exact_mod_cast (show k ≤ 198 by omega)
    have h1 : (0 : ℚ) < 20 - (k : ℚ) / 10 := by linarith
    have h2 : ¬ (20 - (k : ℚ) / 10 - 1 / 10 ≤ 0) := by intro hle; linarith
    simp only [timeoutIter, ihk, timeoutTick, h1, if_true, h2, if_false,
      Bool.false_eq_true, Prod.mk.injEq, TimeoutState.mk.injEq]
    refine ⟨⟨?_, by trivial⟩, by trivial⟩
    push_cast
    ring

/-- On exactly the 200th tick the timer drops to 0, the expiry fires, and
`menu_state` is reset to `None`. -/
theorem timeoutIter_at_200 (ms : Option Nat) :
    timeoutIter ⟨20, ms⟩ 200 = (⟨0, none⟩, 1) := by
  have h := timeoutIter_pre ms 199 (le_refl _)
  rw [show (200 : Nat) = 199 + 1 from rfl, timeoutIter, h]
  norm_num [timeoutTick, Prod.mk.injEq, TimeoutState.mk.injEq]

/-- A tick taken with the timer already at or below zero is a no-op: the
main loop goes to the disk branch instead. -/
theorem timeoutTick_stopped (s : TimeoutState) (h : s.action_time ≤ 0) :
    timeoutTick s = (s, false) := by
  simp [timeoutTick, not_lt.mpr h]

/-- From the 200th tick on, the run stays at the fired-once state. -/
theorem timeoutIter_post (ms : Option Nat) :
    ∀ n, 200 ≤ n → timeoutIter ⟨20, ms⟩ n = (⟨0, none⟩, 1) := by
  intro n hn
  induction n, hn using Nat.le_induction with
  | base => exact timeoutIter_at_200 ms
  | succ n hn ih =>
    rw [timeoutIter, ih, timeoutTick_stopped ⟨0, none⟩ (le_refl 0)]
    simp

/-- C5: starting with the action timeout at `ACTION_TIMEOUT = 20` and no
intervening reset, the expiry has not fired after 199 ticks of 0.1 s, fires
on the 200th tick — `menu_state` becomes `None` together with the blank
render modelled by the fired flag — and over any horizon of `n ≥ 200` ticks
it has fired exactly once: it is never re-fired on a later tick. -/
theorem action_timeout_fires_once (ms : Option Nat) (n : Nat)
    (hn : 200 ≤ n) :
    (timeoutIter ⟨ACTION_TIMEOUT, ms⟩ n).2 = 1 ∧
    (timeoutIter ⟨ACTION_TIMEOUT, ms⟩ n).1.menu_state = none ∧
    (timeoutIter ⟨ACTION_TIMEOUT, ms⟩ 199).2 = 0 ∧
    (timeoutIter ⟨ACTION_TIMEOUT, ms⟩ 200).2 = 1 := by
  have hA : (⟨ACTION_TIMEOUT, ms⟩ : TimeoutState) = ⟨20, ms⟩ := rfl
  rw [hA, timeoutIter_post ms n hn, timeoutIter_pre ms 199 (le_refl _),
    timeoutIter_at_200 ms]
  exact ⟨rfl, rfl, rfl, rfl⟩

/-- Witness for C5: the horizon of exactly 200 ticks. -/
theorem action_timeout_fires_once_witness :
    (timeoutIter ⟨ACTION_TIMEOUT, some 2⟩ 200).2 = 1 ∧
    (timeoutIter ⟨ACTION_TIMEOUT, some 2⟩ 200).1.menu_state = none ∧
    (timeoutIter ⟨ACTION_TIMEOUT, some 2⟩ 199).2 = 0 ∧
    (timeoutIter ⟨ACTION_TIMEOUT, some 2⟩ 200).2 = 1 :=
  action_timeout_fires_once (some 2) 200 (le_refl _)

/-! ### C8 -/

/-- The scan over a list of rows, when every row whose designated field is
present carries a well-formed integer there, succeeds and reports activity
exactly when some row is active. -/
theorem scanLines_total :
    ∀ ls : List (List Char), (∀ l ∈ ls, rowParses l = true) →
      scanLines ls = .ok (ls.any rowActive) := by
  intro ls
  induction ls with
  | nil => intro _; rfl
  | cons l ls ih =>
    intro h
    have hl : rowParses l = true := h l (by simp)
    have hrest : ∀ x ∈ ls, rowParses x = true := fun x hx => h x (by simp [hx])
    cases hidx : (pysplit l)[IO_FIELD - 1]? with
    | none =>
      have hrow : rowActive l = false := by simp [rowActive, hidx]
      simp only [scanLines, hidx, ih hrest, List.any_cons, hrow,
        Bool.false_or]
    | some tok =>
      have hsome : (pyInt tok).isSome = true := by
        simpa [rowParses, hidx] using hl
      cases hint : pyInt tok with
      | none => rw [hint] at hsome; simp at hsome
      | some v =>
        by_cases hv : v ≠ 0
        · have hrow : rowActive l = true := by simp [rowActive, hidx, hint, hv]
          simp only [scanLines, hidx, hint, if_pos hv, List.any_cons, hrow,
            Bool.true_or]
        · push_neg at hv
          have hrow : rowActive l = false := by
            simp [rowActive, hidx, hint, hv]
          simp only [scanLines, hidx, hint]
          rw [if_neg (fun hne => hne hv), ih hrest, List.any_cons, hrow,
            Bool.false_or]

/-- C8 counterexample: a disk-statistics row whose designated column
(field 12) is present but not a well-formed integer is not skipped — the
`int` conversion raises an uncaught `ValueError` and the poll fails,
instead of treating the row as non-matching. -/
theorem diskscan_nonint_row_fatal :
    diskScan "0 0 0 0 0 0 0 0 0 0 0 x" = .error "ValueError" := rfl

/-- C8 amended: the scan catches only `IndexError`.  A row with fewer than
12 whitespace-separated fields is skipped as non-matching, and if every row
whose 12th field is present parses as an integer the poll succeeds,
reporting `Active` exactly when some row has a nonzero value in the 12th
field; but a row whose 12th field is present and not a well-formed integer
raises an uncaught `ValueError` and the poll fails. -/
theorem diskscan_activity (content : String)
    (h : ∀ l ∈ splitRuns (fun c => c = '\n') content.data,
        rowParses l = true) :
    diskScan content
      = .ok ((splitRuns (fun c => c = '\n') content.data).any rowActive) :=
  scanLines_total _ h

/-- Witness for C8 amended: a two-row file whose first row is too short
(skipped) and whose second row has a nonzero 12th field. -/
theorem diskscan_activity_witness :
    diskScan "a b\n1 2 3 4 5 6 7 8 9 10 11 5 13" = .ok true :=
  diskscan_activity "a b\n1 2 3 4 5 6 7 8 9 10 11 5 13" (by decide)

end OledInfo
